import Mathlib

/-!
Verification of the cleaning and feature-engineering core of the patient
readmission data pipeline (`01_data_engineering_pipeline.py`).

The pipeline's DataFrame stages are shallowly embedded as pure functions on
lists of records.  Nullable columns (names, dates, codes, values — the
quality-sensitive fields) are `Option`s; SQL three-valued logic is modelled
by the usual Spark rules: a `WHEN` condition involving a null comparison is
not true, `UPPER(NULL)` is null, `concat_ws` skips nulls, and aggregates
ignore nulls.  `DoubleType` lab values are modelled as exact fractions
(`Frac`), so that every definition is executable by the kernel.
-/

/-! ## String utilities (UPPER, regexp_replace, rlike as substring search) -/

/-- ASCII uppercase table used to model SQL `UPPER`.  Diagnosis codes and
medication names in this pipeline are ASCII, so the ASCII table is the
relevant fragment of `UPPER`. -/
def upTable : List (Char × Char) :=
  [('a','A'), ('b','B'), ('c','C'), ('d','D'), ('e','E'), ('f','F'), ('g','G'),
   ('h','H'), ('i','I'), ('j','J'), ('k','K'), ('l','L'), ('m','M'), ('n','N'),
   ('o','O'), ('p','P'), ('q','Q'), ('r','R'), ('s','S'), ('t','T'), ('u','U'),
   ('v','V'), ('w','W'), ('x','X'), ('y','Y'), ('z','Z')]

/-- Uppercase one character: look it up in the ASCII table, otherwise keep it. -/
def upChar (c : Char) : Char :=
  ((upTable.find? (fun kv => kv.1 == c)).map Prod.snd).getD c

/-- Model of SQL `UPPER` on a string. -/
def upperStr (s : String) : String :=
  String.mk (s.data.map upChar)

/-- Characters removed by `regexp_replace(code, "[-.]", "")`. -/
def keepChar (c : Char) : Bool :=
  !(c == '-' || c == '.')

/-- Model of `regexp_replace(s, "[-.]", "")`: drop every hyphen and period. -/
def stripPunct (s : String) : String :=
  String.mk (s.data.filter keepChar)

/-- Diagnosis-code canonicalization from the silver diagnoses stage:
uppercase, then strip hyphens and periods. -/
def canonDiagCode (s : String) : String :=
  stripPunct (upperStr s)

/-- Decides whether `pat` occurs at the start of `l`. -/
def listPre : List Char → List Char → Bool
  | [], _ => true
  | _ :: _, [] => false
  | a :: as, b :: bs => a == b && listPre as bs

/-- Decides whether `pat` occurs somewhere inside `l`; this is the semantics
of `rlike` applied to a pattern that is a plain literal string. -/
def listSub (pat : List Char) : List Char → Bool
  | [] => pat.isEmpty
  | b :: bs => listPre pat (b :: bs) || listSub pat bs

/-- `containsSub hay pat` models `hay rlike pat` for a literal pattern. -/
def containsSub (hay pat : String) : Bool :=
  listSub pat.data hay.data

/-- Lexicographic comparison of character lists by code point, modelling the
binary string ordering Spark uses in `ORDER BY` over string columns. -/
def strLtB : List Char → List Char → Bool
  | [], [] => false
  | [], _ :: _ => true
  | _ :: _, [] => false
  | a :: as, b :: bs =>
    if a.toNat < b.toNat then true
    else if b.toNat < a.toNat then false
    else strLtB as bs

/-- Model of `concat_ws(sep, ...)`: null components are skipped, and the
result is never null (an all-null argument list yields the empty string). -/
def concatWs (sep : String) (parts : List (Option String)) : String :=
  String.intercalate sep (parts.filterMap id)

/-! ## Dates -/

/-- A parsed calendar date. -/
structure Date where
  year : Nat
  month : Nat
  day : Nat
deriving Repr, DecidableEq

/-- Numeric value of a digit string. -/
def digitsToNat (cs : List Char) : Nat :=
  cs.foldl (fun a c => 10 * a + (c.toNat - 48)) 0

/-- All characters are decimal digits. -/
def allDigits (cs : List Char) : Bool :=
  cs.all (fun c => c.isDigit)

/-- Range validation applied by `to_date`: month and day must be in range,
otherwise parsing fails and yields null.  Day-in-month and leap-year
subtleties are approximated by the bound 31; no claim depends on them. -/
def mkValidDate (y m d : Nat) : Option Date :=
  if 1 ≤ m ∧ m ≤ 12 ∧ 1 ≤ d ∧ d ≤ 31 then some ⟨y, m, d⟩ else none

/-- The regular expression `^\d{2}/\d{2}/\d{4}$` from the DOB parsing step. -/
def slashShape (s : String) : Bool :=
  match s.data with
  | [a, b, c, d, e, f, g, h, i, j] =>
    a.isDigit && b.isDigit && c == '/' && d.isDigit && e.isDigit && f == '/' &&
    g.isDigit && h.isDigit && i.isDigit && j.isDigit
  | _ => false

/-- Model of `to_date(s, "MM/dd/yyyy")`. -/
def parseDateUS (s : String) : Option Date :=
  match s.data with
  | [m1, m2, c1, d1, d2, c2, y1, y2, y3, y4] =>
    if (c1 == '/' && c2 == '/') && allDigits [m1, m2, d1, d2, y1, y2, y3, y4] then
      mkValidDate (digitsToNat [y1, y2, y3, y4]) (digitsToNat [m1, m2]) (digitsToNat [d1, d2])
    else none
  | _ => none

/-- Model of `to_date(s, "yyyy-MM-dd")`. -/
def parseDateISO (s : String) : Option Date :=
  match s.data with
  | [y1, y2, y3, y4, c1, m1, m2, c2, d1, d2] =>
    if (c1 == '-' && c2 == '-') && allDigits [y1, y2, y3, y4, m1, m2, d1, d2] then
      mkValidDate (digitsToNat [y1, y2, y3, y4]) (digitsToNat [m1, m2]) (digitsToNat [d1, d2])
    else none
  | _ => none

/-- DOB parsing from the silver patients stage: if the raw string matches the
slash shape, parse it as `MM/dd/yyyy`, otherwise as `yyyy-MM-dd`; a null
input stays null. -/
def parseDob (s : Option String) : Option Date :=
  match s with
  | none => none
  | some t => if slashShape t then parseDateUS t else parseDateISO t

/-- Left-pad a numeral with zeros to width `w`. -/
def padZeros (w : Nat) (n : Nat) : String :=
  let r := Nat.repr n
  String.mk (List.replicate (w - r.length) '0') ++ r

/-- Rendering of a date as `yyyy-MM-dd`, as Spark does when a date column is
used inside `concat_ws`. -/
def Date.toIso (d : Date) : String :=
  padZeros 4 d.year ++ "-" ++ padZeros 2 d.month ++ "-" ++ padZeros 2 d.day

/-! ## Exact fractions modelling DoubleType values -/

/-- An exact fraction `num / den`.  All values supplied by the source data
have positive denominators, and every pipeline operation preserves that, so
the cross-multiplication comparisons below agree with the numeric order. -/
structure Frac where
  num : Int
  den : Int
deriving Repr, DecidableEq

/-- Embed an integer. -/
def Frac.ofInt (n : Int) : Frac := ⟨n, 1⟩

/-- Fraction addition (no normalization; exact value is preserved). -/
def Frac.add (a b : Frac) : Frac := ⟨a.num * b.den + b.num * a.den, a.den * b.den⟩

/-- Fraction subtraction. -/
def Frac.sub (a b : Frac) : Frac := ⟨a.num * b.den - b.num * a.den, a.den * b.den⟩

/-- Fraction multiplication. -/
def Frac.mul (a b : Frac) : Frac := ⟨a.num * b.num, a.den * b.den⟩

/-- Division by a positive natural number (used for averages and rounding). -/
def Frac.divNat (a : Frac) (n : Nat) : Frac := ⟨a.num, a.den * n⟩

/-- Strict order by cross multiplication. -/
def Frac.ltB (a b : Frac) : Bool := a.num * b.den < b.num * a.den

/-- The constant `1.5` from the IQR bounds. -/
def threeHalves : Frac := ⟨3, 2⟩

/-- Sum of a list of fractions. -/
def Frac.sumList (xs : List Frac) : Frac :=
  xs.foldr Frac.add (Frac.ofInt 0)

/-- Floor of a fraction with positive denominator. -/
def Frac.floor (a : Frac) : Int := a.num.fdiv a.den

/-- Model of `F.round(x, 2)` (half up for the nonnegative values the lab
columns hold; negative midpoints, which HALF_UP rounds away from zero, do
not occur in any claim). -/
def round2 (x : Frac) : Frac :=
  let y := x.mul (Frac.ofInt 100)
  ⟨(y.add ⟨1, 2⟩).floor, 100⟩

/-- Arithmetic mean of a list of values; the SQL `avg` of an empty set of
non-null values is null. -/
def avgOf (xs : List Frac) : Option Frac :=
  match xs with
  | [] => none
  | _ => some ((Frac.sumList xs).divNat xs.length)

/-! ## Record types -/

/-- A raw patient record (bronze `patients` schema).  Identifier columns are
non-null; the quality-sensitive columns are nullable. -/
structure PatientRaw where
  patient_id : Int
  first_name : Option String
  last_name : Option String
  date_of_birth : Option String
  age : Option Int
  gender : Option String
  admission_date : Option String
  discharge_date : Option String
  length_of_stay : Option Int
  readmitted_30_days : Option Int
deriving Repr, DecidableEq

/-- A patient record after the type-standardization step (dates parsed). -/
structure PatientClean where
  patient_id : Int
  first_name : Option String
  last_name : Option String
  date_of_birth : Option Date
  age : Option Int
  gender : Option String
  admission_date : Option Date
  discharge_date : Option Date
  length_of_stay : Option Int
  readmitted_30_days : Option Int
  data_quality_issue : Option String
deriving Repr, DecidableEq

/-- A silver patient record: annotated with `patient_key` and `is_duplicate`
(the source stores the duplicate flag as 1/0; it is modelled as a `Bool`). -/
structure PatientSilver where
  patient_key : Nat
  original_patient_id : Int
  first_name : Option String
  last_name : Option String
  date_of_birth : Option Date
  age : Option Int
  gender : Option String
  admission_date : Option Date
  discharge_date : Option Date
  length_of_stay : Option Int
  readmitted_30_days : Option Int
  is_duplicate : Bool
  data_quality_issue : Option String
deriving Repr, DecidableEq

/-- A raw diagnosis record. -/
structure DiagnosisRaw where
  diagnosis_id : Int
  patient_id : Int
  diagnosis_code : Option String
  diagnosis_description : Option String
  primary_diagnosis : Option Int
deriving Repr, DecidableEq

/-- A silver diagnosis record with canonical code and quality flag. -/
structure DiagnosisSilver where
  diagnosis_id : Int
  patient_id : Int
  diagnosis_code : Option String
  diagnosis_code_raw : Option String
  diagnosis_description : Option String
  primary_diagnosis : Option Int
  data_quality_issue : Option String
deriving Repr, DecidableEq

/-- A raw lab record. -/
structure LabRaw where
  lab_id : Int
  patient_id : Int
  test_name : Option String
  test_value : Option Frac
  test_date : Option String
  reference_range : Option String
deriving Repr, DecidableEq

/-- A silver lab record annotated with `is_outlier` (stored 1/0 in the
source, modelled as a `Bool`) and a quality flag. -/
structure LabSilver where
  lab_id : Int
  patient_id : Int
  test_name : Option String
  test_value : Option Frac
  test_date : Option Date
  reference_range : Option String
  is_outlier : Bool
  data_quality_issue : Option String
deriving Repr, DecidableEq

/-- A raw medication record. -/
structure MedicationRaw where
  medication_id : Int
  patient_id : Int
  medication_name : Option String
  dosage : Option String
  frequency : Option String
  start_date : Option String
  end_date : Option String
deriving Repr, DecidableEq

/-- A silver medication record with standardized name and quality flag. -/
structure MedicationSilver where
  medication_id : Int
  patient_id : Int
  medication_name : Option String
  medication_name_raw : Option String
  dosage : Option String
  frequency : Option String
  start_date : Option Date
  end_date : Option Date
  data_quality_issue : Option String
deriving Repr, DecidableEq

/-! ## Silver patients: clean, quality flags, deduplication -/

/-- STEP 1 of the silver patients stage: parse the date columns. -/
def cleanPatient (r : PatientRaw) : PatientClean :=
  { patient_id := r.patient_id
    first_name := r.first_name
    last_name := r.last_name
    date_of_birth := parseDob r.date_of_birth
    age := r.age
    gender := r.gender
    admission_date := r.admission_date.bind parseDateISO
    discharge_date := r.discharge_date.bind parseDateISO
    length_of_stay := r.length_of_stay
    readmitted_30_days := r.readmitted_30_days
    data_quality_issue := none }

/-- STEP 2: the ordered patient quality-rule chain (`F.when ... otherwise`);
a condition on a null value is not true, so it falls through. -/
def patientQualityFlag (r : PatientClean) : Option String :=
  if r.first_name = none then some "null_first_name"
  else if r.last_name = none then some "null_last_name"
  else if (match r.age with | some a => decide (a < 0) | none => false : Bool) then some "invalid_age"
  else if (match r.age with | some a => decide (a > 120) | none => false : Bool) then some "invalid_age"
  else if r.admission_date = none then some "null_admission_date"
  else if (match r.length_of_stay with | some l => decide (l ≤ 0) | none => false : Bool) then some "invalid_los"
  else none

/-- STEP 3: the patient fingerprint
`concat_ws("|", UPPER(first_name), UPPER(last_name), date_of_birth)`. -/
def fingerprint (r : PatientClean) : String :=
  concatWs "|" [r.first_name.map upperStr, r.last_name.map upperStr, r.date_of_birth.map Date.toIso]

/-- The dedup ordering key of an indexed record: `row_number` orders by
`patient_id` within a fingerprint partition; ties on `patient_id` are broken
by position, making the window deterministic. -/
def dedupKey (ir : Nat × PatientClean) : Int × Nat :=
  (ir.2.patient_id, ir.1)

/-- Strict lexicographic comparison of dedup keys. -/
def keyLtB (a b : Int × Nat) : Bool :=
  a.1 < b.1 || (a.1 == b.1 && a.2 < b.2)

/-- `row_number() over (partition by fingerprint order by patient_id)` for
the record at position `i`: one plus the number of records of the same
fingerprint group with a smaller ordering key. -/
def rowNum (xs : List PatientClean) (ir : Nat × PatientClean) : Nat :=
  (xs.enum.filter (fun js =>
    fingerprint js.2 == fingerprint ir.2 && keyLtB (dedupKey js) (dedupKey ir))).length + 1

/-- `dense_rank() over (order by patient_fingerprint)` as a function of the
fingerprint value: one plus the number of distinct strictly smaller
fingerprints present. -/
def patientKeyOf (xs : List PatientClean) (fp : String) : Nat :=
  (((xs.map fingerprint).filter (fun g => strLtB g.data fp.data)).dedup).length + 1

/-- Assemble one silver patient row from an indexed cleaned record. -/
def mkPatientSilver (xs : List PatientClean) (ir : Nat × PatientClean) : PatientSilver :=
  { patient_key := patientKeyOf xs (fingerprint ir.2)
    original_patient_id := ir.2.patient_id
    first_name := ir.2.first_name
    last_name := ir.2.last_name
    date_of_birth := ir.2.date_of_birth
    age := ir.2.age
    gender := ir.2.gender
    admission_date := ir.2.admission_date
    discharge_date := ir.2.discharge_date
    length_of_stay := ir.2.length_of_stay
    readmitted_30_days := ir.2.readmitted_30_days
    is_duplicate := rowNum xs ir > 1
    data_quality_issue := ir.2.data_quality_issue }

/-- The cleaned-and-flagged patient collection (STEPs 1 and 2). -/
def patientsCleanFlagged (ps : List PatientRaw) : List PatientClean :=
  ps.map (fun p =>
    let c := cleanPatient p
    { c with data_quality_issue := patientQualityFlag c })

/-- The silver patients stage: clean, flag, fingerprint, dedup-annotate. -/
def patientsSilver (ps : List PatientRaw) : List PatientSilver :=
  (patientsCleanFlagged ps).enum.map (mkPatientSilver (patientsCleanFlagged ps))

/-- The fingerprint of a silver row, recomputed from its retained columns
(the silver select drops the fingerprint column). -/
def silverFp (r : PatientSilver) : String :=
  concatWs "|" [r.first_name.map upperStr, r.last_name.map upperStr, r.date_of_birth.map Date.toIso]

/-! ## Silver diagnoses -/

/-- The diagnosis quality-rule chain: empty canonical code, then null
description. -/
def diagQualityFlag (std : Option String) (desc : Option String) : Option String :=
  if (match std with | some c => c == "" | none => false : Bool) then some "empty_code"
  else if desc = none then some "null_description"
  else none

/-- The silver diagnoses stage: canonicalize the code, attach the flag. -/
def diagnosesSilver (ds : List DiagnosisRaw) : List DiagnosisSilver :=
  ds.map (fun d =>
    let std := d.diagnosis_code.map canonDiagCode
    { diagnosis_id := d.diagnosis_id
      patient_id := d.patient_id
      diagnosis_code := std
      diagnosis_code_raw := d.diagnosis_code
      diagnosis_description := d.diagnosis_description
      primary_diagnosis := d.primary_diagnosis
      data_quality_issue := diagQualityFlag std d.diagnosis_description })

/-! ## Silver labs: IQR outlier detection -/

/-- The non-null `test_value`s of the records sharing a given `test_name`
(`percentile_approx` ignores nulls; a null test name forms its own group). -/
def groupValues (ls : List LabRaw) (tn : Option String) : List Frac :=
  (ls.filter (fun l => l.test_name == tn)).filterMap (fun l => l.test_value)

/-- Insert into a list sorted ascending by `Frac.ltB`'s order. -/
def insertFrac (x : Frac) : List Frac → List Frac
  | [] => [x]
  | y :: ys => if Frac.ltB y x then y :: insertFrac x ys else x :: y :: ys

/-- Sort ascending (insertion sort; only the sorted order matters). -/
def sortFrac (xs : List Frac) : List Frac :=
  xs.foldr insertFrac []

/-- Model of `percentile_approx(v, p)`: the element of the sorted group at
rank `max 1 ⌈p·n⌉`; null on an empty group. -/
def percentileApprox (pNum pDen : Nat) (xs : List Frac) : Option Frac :=
  match sortFrac xs with
  | [] => none
  | y :: ys =>
    let n := ys.length + 1
    let r := max 1 ((pNum * n + (pDen - 1)) / pDen)
    some ((y :: ys).getD (r - 1) y)

/-- The per-group `q1` column. -/
def labQ1 (ls : List LabRaw) (tn : Option String) : Option Frac :=
  percentileApprox 1 4 (groupValues ls tn)

/-- The per-group `q3` column. -/
def labQ3 (ls : List LabRaw) (tn : Option String) : Option Frac :=
  percentileApprox 3 4 (groupValues ls tn)

/-- The `lower_bound` column: `q1 - 1.5 * (q3 - q1)`. -/
def labLower (ls : List LabRaw) (tn : Option String) : Option Frac :=
  match labQ1 ls tn, labQ3 ls tn with
  | some q1, some q3 => some (q1.sub (threeHalves.mul (q3.sub q1)))
  | _, _ => none

/-- The `upper_bound` column: `q3 + 1.5 * (q3 - q1)`. -/
def labUpper (ls : List LabRaw) (tn : Option String) : Option Frac :=
  match labQ1 ls tn, labQ3 ls tn with
  | some q1, some q3 => some (q3.add (threeHalves.mul (q3.sub q1)))
  | _, _ => none

/-- The `is_outlier` column: value strictly below the lower bound or above
the upper bound; a null comparison (null value or null bounds) is not true. -/
def labOutlier (ls : List LabRaw) (l : LabRaw) : Bool :=
  match l.test_value, labLower ls l.test_name, labUpper ls l.test_name with
  | some v, some lb, some ub => Frac.ltB v lb || Frac.ltB ub v
  | _, _, _ => false

/-- The lab quality-rule chain: outlier, then negative value, then
unparseable date. -/
def labQualityFlag (isOut : Bool) (v : Option Frac) (d : Option Date) : Option String :=
  if isOut then some "outlier_detected"
  else if (match v with | some x => Frac.ltB x (Frac.ofInt 0) | none => false : Bool) then some "negative_value"
  else if d = none then some "invalid_date"
  else none

/-- The silver labs stage: annotate every record with `is_outlier`, parse the
test date, attach the flag. -/
def labsSilver (ls : List LabRaw) : List LabSilver :=
  ls.map (fun l =>
    let isOut := labOutlier ls l
    let parsed := l.test_date.bind parseDateISO
    { lab_id := l.lab_id
      patient_id := l.patient_id
      test_name := l.test_name
      test_value := l.test_value
      test_date := parsed
      reference_range := l.reference_range
      is_outlier := isOut
      data_quality_issue := labQualityFlag isOut l.test_value parsed })

/-! ## Silver medications -/

/-- The ordered, case-insensitive, first-match-wins standardization rules
(`F.when(upper(name).rlike(PAT), canonical)` chain; unmatched names pass
through). -/
def medStandardize (name : String) : String :=
  let u := upperStr name
  if containsSub u "METFORMIN" then "Metformin"
  else if containsSub u "LISINOPRIL" then "Lisinopril"
  else if containsSub u "ATORVASTATIN" then "Atorvastatin"
  else if containsSub u "OMEPRAZOLE" then "Omeprazole"
  else if containsSub u "ALBUTEROL" then "Albuterol"
  else if containsSub u "ASPIRIN" || containsSub u "ASA" then "Aspirin"
  else name

/-- The medication quality flag:
`when(standard == raw, NULL).otherwise("standardized_name")`.  Under SQL
semantics a null-to-null comparison is not true, so a null name takes the
`otherwise` branch and is flagged. -/
def medQualityFlag (std raw : Option String) : Option String :=
  match std, raw with
  | some a, some b => if a = b then none else some "standardized_name"
  | _, _ => some "standardized_name"

/-- The silver medications stage. -/
def medsSilver (ms : List MedicationRaw) : List MedicationSilver :=
  ms.map (fun m =>
    let std := m.medication_name.map medStandardize
    { medication_id := m.medication_id
      patient_id := m.patient_id
      medication_name := std
      medication_name_raw := m.medication_name
      dosage := m.dosage
      frequency := m.frequency
      start_date := m.start_date.bind parseDateISO
      end_date := m.end_date.bind parseDateISO
      data_quality_issue := medQualityFlag std m.medication_name })

/-! ## Gold layer: feature engineering -/

/-- `rlike` on a nullable column: null never matches. -/
def optHas (s : Option String) (pat : String) : Bool :=
  match s with
  | some c => containsSub c pat
  | none => false

/-- Per-patient diagnosis features. -/
structure DiagFeatures where
  patient_id : Int
  num_diagnoses : Nat
  has_diabetes : Nat
  has_heart_disease : Nat
  has_copd : Nat
  has_ckd : Nat
  has_anxiety : Nat
  num_chronic_conditions : Nat
deriving Repr, DecidableEq

/-- The diagnosis records admitted into feature aggregation: those with no
quality flag. -/
def validDiags (ds : List DiagnosisSilver) : List DiagnosisSilver :=
  ds.filter (fun d => d.data_quality_issue == none)

/-- Binarize a match count, as the source does after `sum(when(...))`. -/
def binOf (n : Nat) : Nat :=
  if n > 0 then 1 else 0

/-- One diagnosis feature row, aggregated over a patient's valid records. -/
def mkDiagFeatures (valid : List DiagnosisSilver) (p : Int) : DiagFeatures :=
  let grp := valid.filter (fun d => d.patient_id == p)
  let hd := binOf (grp.countP (fun d => optHas d.diagnosis_code "E11"))
  let hh := binOf (grp.countP (fun d => optHas d.diagnosis_code "I10" || optHas d.diagnosis_code "I5"))
  let hc := binOf (grp.countP (fun d => optHas d.diagnosis_code "J44"))
  let hk := binOf (grp.countP (fun d => optHas d.diagnosis_code "N18"))
  let ha := binOf (grp.countP (fun d => optHas d.diagnosis_code "F41"))
  { patient_id := p
    num_diagnoses := grp.length
    has_diabetes := hd
    has_heart_disease := hh
    has_copd := hc
    has_ckd := hk
    has_anxiety := ha
    num_chronic_conditions := hd + hh + hc + hk }

/-- The diagnosis feature table: `groupBy(patient_id)` over valid records
(one output row per distinct patient id present). -/
def diagnosisFeatures (ds : List DiagnosisSilver) : List DiagFeatures :=
  let valid := validDiags ds
  ((valid.map (fun d => d.patient_id)).dedup).map (mkDiagFeatures valid)

/-- Per-patient lab features. -/
structure LabFeatures where
  patient_id : Int
  avg_hemoglobin : Option Frac
  avg_glucose : Option Frac
  avg_wbc : Option Frac
  avg_creatinine : Option Frac
  avg_bun : Option Frac
  num_lab_tests : Nat
deriving Repr, DecidableEq

/-- The lab records admitted into feature aggregation: no quality flag and
not an outlier. -/
def validLabs (ls : List LabSilver) : List LabSilver :=
  ls.filter (fun l => l.data_quality_issue == none && l.is_outlier == false)

/-- The non-null values of one named test within a patient's valid records
(`avg(when(test_name == name, test_value))` ignores the nulls produced by
non-matching rows). -/
def testValues (grp : List LabSilver) (name : String) : List Frac :=
  (grp.filter (fun l => l.test_name == some name)).filterMap (fun l => l.test_value)

/-- One lab feature row: per-test averages rounded to two decimals, plus the
count of valid lab records. -/
def mkLabFeatures (valid : List LabSilver) (p : Int) : LabFeatures :=
  let grp := valid.filter (fun l => l.patient_id == p)
  { patient_id := p
    avg_hemoglobin := (avgOf (testValues grp "Hemoglobin")).map round2
    avg_glucose := (avgOf (testValues grp "Glucose")).map round2
    avg_wbc := (avgOf (testValues grp "WBC")).map round2
    avg_creatinine := (avgOf (testValues grp "Creatinine")).map round2
    avg_bun := (avgOf (testValues grp "BUN")).map round2
    num_lab_tests := grp.length }

/-- The lab feature table. -/
def labFeatures (ls : List LabSilver) : List LabFeatures :=
  let valid := validLabs ls
  ((valid.map (fun l => l.patient_id)).dedup).map (mkLabFeatures valid)

/-- Per-patient medication features. -/
structure MedFeatures where
  patient_id : Int
  num_medications : Nat
  on_metformin : Nat
  on_ace_inhibitor : Nat
  on_statin : Nat
deriving Repr, DecidableEq

/-- The medication records admitted into feature aggregation: no quality
flag. -/
def validMeds (ms : List MedicationSilver) : List MedicationSilver :=
  ms.filter (fun m => m.data_quality_issue == none)

/-- One medication feature row: drug-class indicators via substring match on
the (standardized) medication name. -/
def mkMedFeatures (valid : List MedicationSilver) (p : Int) : MedFeatures :=
  let grp := valid.filter (fun m => m.patient_id == p)
  { patient_id := p
    num_medications := grp.length
    on_metformin := binOf (grp.countP (fun m => optHas m.medication_name "Metformin"))
    on_ace_inhibitor := binOf (grp.countP (fun m => optHas m.medication_name "Lisinopril"))
    on_statin := binOf (grp.countP (fun m => optHas m.medication_name "Atorvastatin")) }

/-- The medication feature table. -/
def medFeatures (ms : List MedicationSilver) : List MedFeatures :=
  let valid := validMeds ms
  ((valid.map (fun m => m.patient_id)).dedup).map (mkMedFeatures valid)

/-- One row of the final gold feature table.  The count, indicator, and
average columns are past their `coalesce`, so they are total (never-null)
values here; generation timestamps are orchestration metadata and omitted. -/
structure GoldRow where
  patient_key : Nat
  original_patient_id : Int
  age : Option Int
  gender : Option String
  length_of_stay : Option Int
  num_diagnoses : Nat
  num_chronic_conditions : Nat
  has_diabetes : Nat
  has_heart_disease : Nat
  has_copd : Nat
  has_ckd : Nat
  has_anxiety : Nat
  num_medications : Nat
  on_metformin : Nat
  on_ace_inhibitor : Nat
  on_statin : Nat
  num_lab_tests : Nat
  avg_hemoglobin : Frac
  avg_glucose : Frac
  avg_wbc : Frac
  avg_creatinine : Frac
  avg_bun : Frac
  target_readmitted_30_days : Option Int
deriving Repr, DecidableEq

/-- Assemble one gold row from a patient-master row and the (at most one,
since each feature table has one row per patient id) joined feature rows,
applying the `coalesce` null-fill. -/
def mkGoldRow (m : PatientSilver) (df : Option DiagFeatures)
    (lf : Option LabFeatures) (mf : Option MedFeatures) : GoldRow :=
  { patient_key := m.patient_key
    original_patient_id := m.original_patient_id
    age := m.age
    gender := m.gender
    length_of_stay := m.length_of_stay
    num_diagnoses := (df.map (fun f => f.num_diagnoses)).getD 0
    num_chronic_conditions := (df.map (fun f => f.num_chronic_conditions)).getD 0
    has_diabetes := (df.map (fun f => f.has_diabetes)).getD 0
    has_heart_disease := (df.map (fun f => f.has_heart_disease)).getD 0
    has_copd := (df.map (fun f => f.has_copd)).getD 0
    has_ckd := (df.map (fun f => f.has_ckd)).getD 0
    has_anxiety := (df.map (fun f => f.has_anxiety)).getD 0
    num_medications := (mf.map (fun f => f.num_medications)).getD 0
    on_metformin := (mf.map (fun f => f.on_metformin)).getD 0
    on_ace_inhibitor := (mf.map (fun f => f.on_ace_inhibitor)).getD 0
    on_statin := (mf.map (fun f => f.on_statin)).getD 0
    num_lab_tests := (lf.map (fun f => f.num_lab_tests)).getD 0
    avg_hemoglobin := (lf.bind (fun f => f.avg_hemoglobin)).getD (Frac.ofInt 0)
    avg_glucose := (lf.bind (fun f => f.avg_glucose)).getD (Frac.ofInt 0)
    avg_wbc := (lf.bind (fun f => f.avg_wbc)).getD (Frac.ofInt 0)
    avg_creatinine := (lf.bind (fun f => f.avg_creatinine)).getD (Frac.ofInt 0)
    avg_bun := (lf.bind (fun f => f.avg_bun)).getD (Frac.ofInt 0)
    target_readmitted_30_days := m.readmitted_30_days }

/-- The gold feature table: the patient master left-joined with the three
feature tables **on `original_patient_id`** (each feature table has one row
per patient id, so the left join is a lookup), then null-filled. -/
def goldTable (ps : List PatientRaw) (ds : List DiagnosisRaw)
    (ls : List LabRaw) (ms : List MedicationRaw) : List GoldRow :=
  let psil := patientsSilver ps
  let dfeat := diagnosisFeatures (diagnosesSilver ds)
  let lfeat := labFeatures (labsSilver ls)
  let mfeat := medFeatures (medsSilver ms)
  psil.map (fun m =>
    mkGoldRow m
      (dfeat.find? (fun f => f.patient_id == m.original_patient_id))
      (lfeat.find? (fun f => f.patient_id == m.original_patient_id))
      (mfeat.find? (fun f => f.patient_id == m.original_patient_id)))

/-! ## Default records (used with `List.getD` in closed statements) -/

/-- Default raw patient record. -/
def patientRawDefault : PatientRaw :=
  { patient_id := 0, first_name := none, last_name := none, date_of_birth := none,
    age := none, gender := none, admission_date := none, discharge_date := none,
    length_of_stay := none, readmitted_30_days := none }

/-- Default silver patient record. -/
def patientSilverDefault : PatientSilver :=
  { patient_key := 0, original_patient_id := 0, first_name := none, last_name := none,
    date_of_birth := none, age := none, gender := none, admission_date := none,
    discharge_date := none, length_of_stay := none, readmitted_30_days := none,
    is_duplicate := false, data_quality_issue := none }

/-- Default raw lab record (its `test_value` is null). -/
def labRawDefault : LabRaw :=
  { lab_id := 0, patient_id := 0, test_name := none, test_value := none,
    test_date := none, reference_range := none }

/-- Default silver lab record. -/
def labSilverDefault : LabSilver :=
  { lab_id := 0, patient_id := 0, test_name := none, test_value := none,
    test_date := none, reference_range := none, is_outlier := false,
    data_quality_issue := none }

/-- Default silver medication record. -/
def medSilverDefault : MedicationSilver :=
  { medication_id := 0, patient_id := 0, medication_name := none,
    medication_name_raw := none, dosage := none, frequency := none,
    start_date := none, end_date := none, data_quality_issue := none }

/-- Default silver diagnosis record. -/
def diagSilverDefault : DiagnosisSilver :=
  { diagnosis_id := 0, patient_id := 0, diagnosis_code := none,
    diagnosis_code_raw := none, diagnosis_description := none,
    primary_diagnosis := none, data_quality_issue := none }

/-- Default diagnosis feature row. -/
def diagFeaturesDefault : DiagFeatures :=
  { patient_id := 0, num_diagnoses := 0, has_diabetes := 0, has_heart_disease := 0,
    has_copd := 0, has_ckd := 0, has_anxiety := 0, num_chronic_conditions := 0 }

/-- Default gold row. -/
def goldRowDefault : GoldRow :=
  { patient_key := 0, original_patient_id := 0, age := none, gender := none,
    length_of_stay := none, num_diagnoses := 0, num_chronic_conditions := 0,
    has_diabetes := 0, has_heart_disease := 0, has_copd := 0, has_ckd := 0,
    has_anxiety := 0, num_medications := 0, on_metformin := 0, on_ace_inhibitor := 0,
    on_statin := 0, num_lab_tests := 0, avg_hemoglobin := Frac.ofInt 0,
    avg_glucose := Frac.ofInt 0, avg_wbc := Frac.ofInt 0,
    avg_creatinine := Frac.ofInt 0, avg_bun := Frac.ofInt 0,
    target_readmitted_30_days := none }

/-! ## Helper lemmas -/

/-- No right-hand side of the uppercase table is itself a table key. -/
lemma upTable_snd_not_key : ∀ kv ∈ upTable, upTable.find? (fun x => x.1 == kv.2) = none := by
  decide

/-- Uppercasing a character twice is the same as uppercasing it once. -/
lemma upChar_upChar (c : Char) : upChar (upChar c) = upChar c := by
  cases h : upTable.find? (fun kv => kv.1 == c) with
  | none =>
    have hc : upChar c = c := by simp [upChar, h]
    rw [hc]
    exact hc
  | some kv =>
    have hc : upChar c = kv.2 := by simp [upChar, h]
    have hmem : kv ∈ upTable := List.mem_of_find?_eq_some h
    rw [hc]
    simp [upChar, upTable_snd_not_key kv hmem]

/-- The character-list form of diagnosis-code canonicalization. -/
def canonData (l : List Char) : List Char :=
  (l.map upChar).filter keepChar

/-- Canonicalization in character-list form is idempotent. -/
lemma canonData_canonData (l : List Char) : canonData (canonData l) = canonData l := by
  have hup : ∀ x ∈ canonData l, upChar x = x := by
    intro x hx
    have hx2 : x ∈ l.map upChar := List.mem_of_mem_filter hx
    obtain ⟨y, _, rfl⟩ := List.mem_map.mp hx2
    exact upChar_upChar y
  have hmap : (canonData l).map upChar = canonData l := by
    calc (canonData l).map upChar = (canonData l).map id := List.map_congr_left hup
    _ = canonData l := List.map_id (canonData l)
  have hkeep : ∀ x ∈ canonData l, keepChar x = true := by
    intro x hx
    exact List.of_mem_filter hx
  show ((canonData l).map upChar).filter keepChar = canonData l
  rw [hmap]
  exact List.filter_eq_self.mpr hkeep

/-- Mapping a function of the payload over an enumerated list is mapping it
over the list itself. -/
lemma map_snd_enum_comp {α β : Type} (l : List α) (f : α → β) :
    l.enum.map (fun ir => f ir.2) = l.map f := by
  have h := congrArg (List.map f) (List.enum_map_snd l)
  rw [← h, List.map_map]
  rfl

/-! ## C8: stage record counts -/

/-- Claim C8: every cleaning stage preserves record count — the Identity
Resolver plus Quality Validator (silver patients), the Categorical
Normalizer plus Quality Validator for diagnoses and medications, and the
Outlier Detector plus Quality Validator (silver labs) each output exactly
one record per input record; attaching a flag never removes a record. -/
theorem c8_stage_counts (ps : List PatientRaw) (ds : List DiagnosisRaw)
    (ls : List LabRaw) (ms : List MedicationRaw) :
    (patientsSilver ps).length = ps.length ∧
    (diagnosesSilver ds).length = ds.length ∧
    (labsSilver ls).length = ls.length ∧
    (medsSilver ms).length = ms.length := by
  refine ⟨?_, ?_, ?_, ?_⟩ <;>
    simp [patientsSilver, patientsCleanFlagged, diagnosesSilver, labsSilver, medsSilver]

/-! ## C9: diagnosis-code canonicalization is idempotent -/

/-- Claim C9: diagnosis-code canonicalization (uppercase, then strip hyphens
and periods) is idempotent — canonicalizing an already-canonical code is a
no-op — and "E11.9", "e11.9", "E11-9" all canonicalize to "E119". -/
theorem c9_canon_idempotent :
    (∀ s : String, canonDiagCode (canonDiagCode s) = canonDiagCode s) ∧
    canonDiagCode "E11.9" = "E119" ∧
    canonDiagCode "e11.9" = "E119" ∧
    canonDiagCode "E11-9" = "E119" := by
  refine ⟨?_, by decide, by decide, by decide⟩
  intro s
  show String.mk (canonData (canonData s.data)) = String.mk (canonData s.data)
  rw [canonData_canonData]

/-! ## C10: null fingerprint components are dropped -/

/-- First of the two C10 records: null first name, last name "Smith". -/
def c10recA : PatientRaw :=
  { patient_id := 1, first_name := none, last_name := some "Smith",
    date_of_birth := some "1980-01-01", age := some 44, gender := some "F",
    admission_date := some "2023-01-01", discharge_date := some "2023-01-05",
    length_of_stay := some 4, readmitted_30_days := some 0 }

/-- Second of the two C10 records: first name "Smith", null last name, same
date of birth. -/
def c10recB : PatientRaw :=
  { patient_id := 2, first_name := some "Smith", last_name := none,
    date_of_birth := some "1980-01-01", age := some 44, gender := some "M",
    admission_date := some "2023-02-01", discharge_date := some "2023-02-05",
    length_of_stay := some 4, readmitted_30_days := some 1 }

/-- Claim C10: `concat_ws` drops null components outright, so a record with
a null quality-sensitive field still receives a fingerprint from its
remaining non-null fields; in particular the two records above — one with a
null first name, one with a null last name, otherwise sharing "SMITH" and
the same date of birth — receive the identical fingerprint, are assigned
the same `patient_key`, and the second is flagged as a duplicate of the
first. -/
theorem c10_null_components_merge :
    (∀ (sep : String) (parts : List (Option String)),
      concatWs sep (none :: parts) = concatWs sep parts) ∧
    silverFp ((patientsSilver [c10recA, c10recB]).getD 0 patientSilverDefault) =
      silverFp ((patientsSilver [c10recA, c10recB]).getD 1 patientSilverDefault) ∧
    ((patientsSilver [c10recA, c10recB]).getD 0 patientSilverDefault).patient_key =
      ((patientsSilver [c10recA, c10recB]).getD 1 patientSilverDefault).patient_key ∧
    ((patientsSilver [c10recA, c10recB]).map (fun r => r.is_duplicate)) = [false, true] := by
  refine ⟨fun sep parts => rfl, by decide, by decide, by decide⟩

/-! ## C5: medication-name standardization -/

/-- A medication record whose name column is null. -/
def c5medNull : MedicationRaw :=
  { medication_id := 1, patient_id := 1, medication_name := none, dosage := none,
    frequency := none, start_date := some "2023-01-01", end_date := some "2023-01-31" }

/-- Claim C5 counterexample: for a record with a null medication name the
canonical name equals the raw name (both null), yet the record carries the
"standardized_name" flag — `when(standard == raw, NULL)` is a null
comparison, so the `otherwise` branch fires.  This refutes "the record
carries the flag exactly when the canonical name differs from the raw
name" as a statement about every medication record. -/
theorem c5_counterexample :
    (medsSilver [c5medNull]).map
        (fun r => (r.medication_name, r.medication_name_raw, r.data_quality_issue)) =
      [(none, none, some "standardized_name")] := by
  decide

/-- Claim C5 (amended): for every medication record with a non-null raw
name, the canonical name is the ordered case-insensitive first-match-wins
standardization of the raw name, and the record carries the
"standardized_name" flag exactly when the canonical name differs from the
raw name; a record with a null raw name keeps a null canonical name but is
always flagged.  "ASA", "Aspirin", "aspirin" all map to "Aspirin" and
"Vitamin D" passes through unchanged. -/
theorem c5_standardized_flag (ms : List MedicationRaw) (r : MedicationSilver)
    (hr : r ∈ medsSilver ms) :
    (∀ s, r.medication_name_raw = some s →
      r.medication_name = some (medStandardize s) ∧
      (r.data_quality_issue = none ↔ medStandardize s = s)) ∧
    (r.medication_name_raw = none →
      r.medication_name = none ∧ r.data_quality_issue = some "standardized_name") ∧
    medStandardize "ASA" = "Aspirin" ∧
    medStandardize "Aspirin" = "Aspirin" ∧
    medStandardize "aspirin" = "Aspirin" ∧
    medStandardize "Vitamin D" = "Vitamin D" := by
  obtain ⟨m, hm, rfl⟩ := List.mem_map.mp hr
  refine ⟨?_, ?_, by decide, by decide, by decide, by decide⟩
  · intro s hs
    simp only at hs
    constructor
    · simp [hs]
    · show medQualityFlag (m.medication_name.map medStandardize) m.medication_name = none ↔
        medStandardize s = s
      rw [hs]
      by_cases h : medStandardize s = s
      · simp [medQualityFlag, h]
      · simp [medQualityFlag, h]
  · intro hs
    simp only at hs
    refine ⟨by simp [hs], by simp [hs, medQualityFlag]⟩

/-- A medication record with the lowercase raw name "aspirin". -/
def c5medAsp : MedicationRaw :=
  { medication_id := 2, patient_id := 1, medication_name := some "aspirin",
    dosage := none, frequency := none, start_date := some "2023-01-01",
    end_date := some "2023-01-31" }

/-- Witness for the amended C5: on the lowercase record the canonical name
is "Aspirin" and a quality flag is present. -/
theorem c5_standardized_flag_witness :
    ((medsSilver [c5medAsp]).getD 0 medSilverDefault).medication_name = some "Aspirin" ∧
    ((medsSilver [c5medAsp]).getD 0 medSilverDefault).data_quality_issue ≠ none := by
  have h := c5_standardized_flag [c5medAsp]
    ((medsSilver [c5medAsp]).getD 0 medSilverDefault) (by decide)
  have h1 := (h.1 "aspirin" (by decide)).1
  have h2 := (h.1 "aspirin" (by decide)).2
  constructor
  · rw [h1]
    decide
  · intro hnone
    have hfix : medStandardize "aspirin" = "aspirin" := h2.mp hnone
    exact absurd hfix (by decide)

/-! ## C7: date-parse failures -/

/-- A medication record with an unmatched name and two unparseable dates
(`start_date` is in slash form, but medication dates are parsed only as
`yyyy-MM-dd`; `end_date` has an invalid month). -/
def c7medCx : MedicationRaw :=
  { medication_id := 3, patient_id := 1, medication_name := some "Vitamin D",
    dosage := none, frequency := none, start_date := some "02/01/2023",
    end_date := some "2023-13-05" }

/-- A patient record whose date of birth fails to parse while every
quality-checked column is clean. -/
def c7patCx : PatientRaw :=
  { patient_id := 3, first_name := some "Ann", last_name := some "Lee",
    date_of_birth := some "19800101xx", age := some 40, gender := some "F",
    admission_date := some "2023-03-01", discharge_date := some "2023-03-04",
    length_of_stay := some 3, readmitted_30_days := some 0 }

/-- Claim C7 counterexample: a medication record whose dates fail to parse
is retained with null parsed dates but **no** quality flag (the medication
flag depends only on the name), and likewise a patient record whose date of
birth fails to parse carries no flag (the patient rule chain has no
date-of-birth rule).  This refutes "an advisory quality flag [is] attached
to that record" for those domains. -/
theorem c7_counterexample :
    (medsSilver [c7medCx]).map (fun r => (r.start_date, r.end_date, r.data_quality_issue)) =
      [(none, none, none)] ∧
    (patientsSilver [c7patCx]).map (fun r => (r.date_of_birth, r.data_quality_issue)) =
      [(none, none)] := by
  constructor
  · decide
  · decide

/-- Claim C7 (amended): a record whose date field fails to parse is always
retained (stage counts are preserved and the parsed-date column is exactly
the per-record parse result, null on failure), and an advisory flag is
guaranteed for lab test-date failures; but patient date-of-birth and
medication start/end-date failures attach no flag of their own — the
medication flag is a function of the name columns only, and the patient
flag ignores the date of birth entirely. -/
theorem c7_date_parse_nullable (ps : List PatientRaw) (ls : List LabRaw)
    (ms : List MedicationRaw) :
    (patientsSilver ps).length = ps.length ∧
    (labsSilver ls).length = ls.length ∧
    (medsSilver ms).length = ms.length ∧
    (patientsSilver ps).map (fun r => r.date_of_birth) =
      ps.map (fun p => parseDob p.date_of_birth) ∧
    (labsSilver ls).map (fun r => r.test_date) =
      ls.map (fun l => l.test_date.bind parseDateISO) ∧
    (medsSilver ms).map (fun r => (r.start_date, r.end_date)) =
      ms.map (fun m => (m.start_date.bind parseDateISO, m.end_date.bind parseDateISO)) ∧
    (∀ r ∈ labsSilver ls, r.test_date = none → r.data_quality_issue ≠ none) ∧
    (∀ r ∈ medsSilver ms, r.data_quality_issue =
      medQualityFlag (r.medication_name_raw.map medStandardize) r.medication_name_raw) ∧
    (∀ (r : PatientClean) (x y : Option Date),
      patientQualityFlag { r with date_of_birth := x } =
        patientQualityFlag { r with date_of_birth := y }) := by
  refine ⟨?_, ?_, ?_, ?_, ?_, ?_, ?_, ?_, ?_⟩
  · simp [patientsSilver, patientsCleanFlagged]
  · simp [labsSilver]
  · simp [medsSilver]
  · simp only [patientsSilver, List.map_map]
    have e1 := map_snd_enum_comp
      (ps.map (fun p =>
        let c := cleanPatient p
        { c with data_quality_issue := patientQualityFlag c }))
      (fun c : PatientClean => c.date_of_birth)
    have e2 : (ps.map (fun p =>
        let c := cleanPatient p
        { c with data_quality_issue := patientQualityFlag c })).map
          (fun c : PatientClean => c.date_of_birth) =
        ps.map (fun p => parseDob p.date_of_birth) := by
      rw [List.map_map]
      rfl
    exact e1.trans e2
  · simp only [labsSilver, List.map_map]
    rfl
  · simp only [medsSilver, List.map_map]
    rfl
  · intro r hr hdate
    obtain ⟨l, hl, rfl⟩ := List.mem_map.mp hr
    simp only at hdate ⊢
    rw [hdate]
    unfold labQualityFlag
    split_ifs <;> simp_all
  · intro r hr
    obtain ⟨m, hm, rfl⟩ := List.mem_map.mp hr
    rfl
  · intro r x y
    rfl

/-- A lab record with an unparseable test date. -/
def c7labW : LabRaw :=
  { lab_id := 1, patient_id := 1, test_name := some "Glucose",
    test_value := some ⟨5, 1⟩, test_date := some "not-a-date", reference_range := none }

/-- Witness for the amended C7: on concrete inputs, the patient with the
unparseable date of birth is retained with a null date, the medication
record keeps null dates, and the lab record with the unparseable test date
carries a quality flag. -/
theorem c7_date_parse_nullable_witness :
    (patientsSilver [c7patCx]).map (fun r => r.date_of_birth) =
      [parseDob (some "19800101xx")] ∧
    (medsSilver [c7medCx]).map (fun r => (r.start_date, r.end_date)) =
      [(none, none)] ∧
    ((labsSilver [c7labW]).getD 0 labSilverDefault).data_quality_issue ≠ none := by
  have h := c7_date_parse_nullable [c7patCx] [c7labW] [c7medCx]
  refine ⟨h.2.2.2.1, ?_, ?_⟩
  · rw [h.2.2.2.2.2.1]
    decide
  · exact h.2.2.2.2.2.2.1 ((labsSilver [c7labW]).getD 0 labSilverDefault)
      (by decide) (by decide)

/-! ## C3: diagnosis condition indicators -/

/-- Binarized match count is 1 exactly when some element matches. -/
lemma binOf_countP_eq_one {α : Type} (l : List α) (q : α → Bool) :
    binOf (l.countP q) = 1 ↔ ∃ a ∈ l, q a = true := by
  unfold binOf
  by_cases h : l.countP q > 0
  · simp only [h, if_pos]
    simpa using List.countP_pos_iff.mp h
  · simp only [h, if_neg]
    simp only [Nat.not_lt, Nat.le_zero] at h
    constructor
    · intro h0
      exact absurd h0 (by decide)
    · intro ⟨a, ha, hq⟩
      have : l.countP q > 0 := List.countP_pos_iff.mpr ⟨a, ha, hq⟩
      omega

/-- Matching rule modelled from the claim's words (not from the code): the
canonical code **starts with** the table entry. -/
def specCodeStarts (code : Option String) (pat : String) : Bool :=
  match code with
  | some c => listPre pat.data c.data
  | none => false

/-- A diagnosis record whose canonical code contains "E11" without starting
with it. -/
def c3diagCx : DiagnosisRaw :=
  { diagnosis_id := 1, patient_id := 1, diagnosis_code := some "X-E11",
    diagnosis_description := some "weird code", primary_diagnosis := some 1 }

/-- Claim C3 counterexample: the record canonicalizes to "XE11" with no
quality flag; the pipeline sets `has_diabetes = 1` for its patient because
`rlike("E11")` is substring containment, although the canonical code's
leading characters do not match the table entry "E11" — so "equals 1
exactly when some ... code whose prefix matches" is false. -/
theorem c3_counterexample :
    (diagnosisFeatures (diagnosesSilver [c3diagCx])).map (fun f => f.has_diabetes) = [1] ∧
    (diagnosesSilver [c3diagCx]).map (fun d => (d.diagnosis_code, d.data_quality_issue)) =
      [(some "XE11", none)] ∧
    specCodeStarts (some "XE11") "E11" = false := by
  refine ⟨by decide, by decide, by decide⟩

/-- Claim C3 (amended): for every patient in the diagnosis-feature output,
each binary condition indicator equals 1 exactly when some unflagged
diagnosis record of that patient has a canonical code **containing** the
static table pattern ("E11" diabetes, "I10" or "I5" heart disease, "J44"
COPD, "N18" CKD, "F41" anxiety) — `rlike` is substring containment, not
leading-characters matching — and `num_chronic_conditions` is the sum of
the diabetes, heart-disease, COPD and CKD indicators, anxiety excluded. -/
theorem c3_condition_indicators (ds : List DiagnosisRaw) (f : DiagFeatures)
    (hf : f ∈ diagnosisFeatures (diagnosesSilver ds)) :
    (f.has_diabetes = 1 ↔ ∃ d ∈ validDiags (diagnosesSilver ds),
        d.patient_id = f.patient_id ∧ optHas d.diagnosis_code "E11" = true) ∧
    (f.has_heart_disease = 1 ↔ ∃ d ∈ validDiags (diagnosesSilver ds),
        d.patient_id = f.patient_id ∧
          (optHas d.diagnosis_code "I10" || optHas d.diagnosis_code "I5") = true) ∧
    (f.has_copd = 1 ↔ ∃ d ∈ validDiags (diagnosesSilver ds),
        d.patient_id = f.patient_id ∧ optHas d.diagnosis_code "J44" = true) ∧
    (f.has_ckd = 1 ↔ ∃ d ∈ validDiags (diagnosesSilver ds),
        d.patient_id = f.patient_id ∧ optHas d.diagnosis_code "N18" = true) ∧
    (f.has_anxiety = 1 ↔ ∃ d ∈ validDiags (diagnosesSilver ds),
        d.patient_id = f.patient_id ∧ optHas d.diagnosis_code "F41" = true) ∧
    f.num_chronic_conditions =
      f.has_diabetes + f.has_heart_disease + f.has_copd + f.has_ckd := by
  unfold diagnosisFeatures at hf
  obtain ⟨p, hp, rfl⟩ := List.mem_map.mp hf
  have hgrp : ∀ (q : DiagnosisSilver → Bool),
      binOf ((validDiags (diagnosesSilver ds)).filter
          (fun d => d.patient_id == p) |>.countP q) = 1 ↔
        ∃ d ∈ validDiags (diagnosesSilver ds), d.patient_id = p ∧ q d = true := by
    intro q
    rw [binOf_countP_eq_one]
    constructor
    · intro ⟨d, hd, hq⟩
      have hd2 := List.mem_filter.mp hd
      exact ⟨d, hd2.1, by simpa using hd2.2, hq⟩
    · intro ⟨d, hd, hpid, hq⟩
      exact ⟨d, List.mem_filter.mpr ⟨hd, by simpa using hpid⟩, hq⟩
  refine ⟨hgrp _, hgrp _, hgrp _, hgrp _, hgrp _, rfl⟩

/-- A diagnosis record with the ordinary diabetes code "E11.9". -/
def c3diagW : DiagnosisRaw :=
  { diagnosis_id := 2, patient_id := 7, diagnosis_code := some "E11.9",
    diagnosis_description := some "Type 2 diabetes", primary_diagnosis := some 1 }

/-- Witness for the amended C3: the patient with code "E11.9" gets
`has_diabetes = 1` and a chronic-condition count of 1. -/
theorem c3_condition_indicators_witness :
    ((diagnosisFeatures (diagnosesSilver [c3diagW])).getD 0 diagFeaturesDefault).has_diabetes = 1 ∧
    ((diagnosisFeatures (diagnosesSilver [c3diagW])).getD 0 diagFeaturesDefault).num_chronic_conditions =
      ((diagnosisFeatures (diagnosesSilver [c3diagW])).getD 0 diagFeaturesDefault).has_diabetes +
      ((diagnosisFeatures (diagnosesSilver [c3diagW])).getD 0 diagFeaturesDefault).has_heart_disease +
      ((diagnosisFeatures (diagnosesSilver [c3diagW])).getD 0 diagFeaturesDefault).has_copd +
      ((diagnosisFeatures (diagnosesSilver [c3diagW])).getD 0 diagFeaturesDefault).has_ckd := by
  have h := c3_condition_indicators [c3diagW]
    ((diagnosisFeatures (diagnosesSilver [c3diagW])).getD 0 diagFeaturesDefault) (by decide)
  refine ⟨?_, h.2.2.2.2.2⟩
  exact h.1.mpr ⟨(diagnosesSilver [c3diagW]).getD 0 diagSilverDefault,
    by decide, by decide, by decide⟩

/-! ## C4: IQR outlier bounds -/

/-- Inserting increases length by one. -/
lemma length_insertFrac (x : Frac) (l : List Frac) :
    (insertFrac x l).length = l.length + 1 := by
  induction l with
  | nil => rfl
  | cons y ys ih =>
    unfold insertFrac
    by_cases h : Frac.ltB y x
    · simp [h, ih]
    · simp [h]

/-- Sorting preserves length. -/
lemma length_sortFrac (l : List Frac) : (sortFrac l).length = l.length := by
  induction l with
  | nil => rfl
  | cons x t ih =>
    show (insertFrac x (sortFrac t)).length = t.length + 1
    rw [length_insertFrac, ih]

/-- The approximate percentile of a nonempty group is defined. -/
lemma percentileApprox_isSome (pn pd : Nat) (xs : List Frac) (h : xs ≠ []) :
    ∃ q, percentileApprox pn pd xs = some q := by
  unfold percentileApprox
  cases hs : sortFrac xs with
  | nil =>
    have hlen : xs.length = 0 := by rw [← length_sortFrac xs, hs]; rfl
    exact absurd (List.length_eq_zero.mp hlen) h
  | cons y ys => exact ⟨_, rfl⟩

/-- `getD` on a mapped list, in range. -/
lemma getD_map_lt {α β : Type} (f : α → β) (l : List α) (i : Nat)
    (hi : i < l.length) (d : β) (d2 : α) :
    (l.map f).getD i d = f (l.getD i d2) := by
  induction l generalizing i with
  | nil => simp at hi
  | cons a t ih =>
    cases i with
    | zero => rfl
    | succ n =>
      have hn : n < t.length := by simpa using hi
      simpa using ih n hn

/-- In-range `getD` gives a member of the list. -/
lemma getD_mem_of_lt {α : Type} (l : List α) (i : Nat) (hi : i < l.length) (d : α) :
    l.getD i d ∈ l := by
  induction l generalizing i with
  | nil => simp at hi
  | cons a t ih =>
    cases i with
    | zero => exact List.mem_cons_self a t
    | succ n =>
      have hn : n < t.length := by simpa using hi
      exact List.mem_cons_of_mem a (ih n hn)

/-- Out-of-range `getD` gives the default. -/
lemma getD_eq_default_of_ge {α : Type} (l : List α) (i : Nat)
    (hi : l.length ≤ i) (d : α) : l.getD i d = d := by
  induction l generalizing i with
  | nil => cases i <;> rfl
  | cons a t ih =>
    cases i with
    | zero => simp at hi
    | succ n =>
      have hn : t.length ≤ n := by simpa using hi
      simpa using ih n hn

/-- Claim C4: every lab record is annotated with `is_outlier`, and for a
record carrying a (non-null) `test_value` the flag is set exactly when the
value falls outside the closed interval `[q1 - 1.5*iqr, q3 + 1.5*iqr]`,
where `iqr = q3 - q1` and `q1`, `q3` are the approximate 25th and 75th
percentiles of `test_value` over the records sharing the record's
`test_name` in the current run. -/
theorem c4_outlier_iqr_bounds (ls : List LabRaw) (i : Nat) (v : Frac)
    (hv : (ls.getD i labRawDefault).test_value = some v) :
    (labsSilver ls).length = ls.length ∧
    ∃ q1 q3, labQ1 ls (ls.getD i labRawDefault).test_name = some q1 ∧
      labQ3 ls (ls.getD i labRawDefault).test_name = some q3 ∧
      labLower ls (ls.getD i labRawDefault).test_name =
        some (q1.sub (threeHalves.mul (q3.sub q1))) ∧
      labUpper ls (ls.getD i labRawDefault).test_name =
        some (q3.add (threeHalves.mul (q3.sub q1))) ∧
      (((labsSilver ls).getD i labSilverDefault).is_outlier = true ↔
        (Frac.ltB v (q1.sub (threeHalves.mul (q3.sub q1))) = true ∨
         Frac.ltB (q3.add (threeHalves.mul (q3.sub q1))) v = true)) := by
  have hi : i < ls.length := by
    by_contra hge
    rw [getD_eq_default_of_ge ls i (by omega) labRawDefault] at hv
    exact Option.noConfusion hv
  have hmemraw : ls.getD i labRawDefault ∈ ls := getD_mem_of_lt ls i hi labRawDefault
  have hvmem : v ∈ groupValues ls (ls.getD i labRawDefault).test_name := by
    unfold groupValues
    apply List.mem_filterMap.mpr
    refine ⟨ls.getD i labRawDefault, ?_, hv⟩
    exact List.mem_filter.mpr ⟨hmemraw, by simp⟩
  have hne : groupValues ls (ls.getD i labRawDefault).test_name ≠ [] :=
    List.ne_nil_of_mem hvmem
  obtain ⟨q1, hq1⟩ := percentileApprox_isSome 1 4 _ hne
  obtain ⟨q3, hq3⟩ := percentileApprox_isSome 3 4 _ hne
  have hq1l : labQ1 ls (ls.getD i labRawDefault).test_name = some q1 := hq1
  have hq3l : labQ3 ls (ls.getD i labRawDefault).test_name = some q3 := hq3
  have hlow : labLower ls (ls.getD i labRawDefault).test_name =
      some (q1.sub (threeHalves.mul (q3.sub q1))) := by
    unfold labLower
    rw [hq1l, hq3l]
  have hup : labUpper ls (ls.getD i labRawDefault).test_name =
      some (q3.add (threeHalves.mul (q3.sub q1))) := by
    unfold labUpper
    rw [hq1l, hq3l]
  refine ⟨by simp [labsSilver], q1, q3, hq1l, hq3l, hlow, hup, ?_⟩
  have hout : ((labsSilver ls).getD i labSilverDefault).is_outlier =
      labOutlier ls (ls.getD i labRawDefault) := by
    unfold labsSilver
    rw [getD_map_lt _ ls i hi labSilverDefault labRawDefault]
  rw [hout]
  unfold labOutlier
  rw [hv, hlow, hup]
  simp only [Bool.or_eq_true]

/-- The spec's synthetic outlier group: five records of one test name with
values 10, 10, 10, 10, 100. -/
def c4labs : List LabRaw :=
  [ { lab_id := 1, patient_id := 1, test_name := some "Glucose",
      test_value := some ⟨10, 1⟩, test_date := some "2023-01-01", reference_range := none },
    { lab_id := 2, patient_id := 1, test_name := some "Glucose",
      test_value := some ⟨10, 1⟩, test_date := some "2023-01-02", reference_range := none },
    { lab_id := 3, patient_id := 2, test_name := some "Glucose",
      test_value := some ⟨10, 1⟩, test_date := some "2023-01-03", reference_range := none },
    { lab_id := 4, patient_id := 2, test_name := some "Glucose",
      test_value := some ⟨10, 1⟩, test_date := some "2023-01-04", reference_range := none },
    { lab_id := 5, patient_id := 3, test_name := some "Glucose",
      test_value := some ⟨100, 1⟩, test_date := some "2023-01-05", reference_range := none } ]

/-- Witness for C4: on the synthetic group the quartiles are both 10, the
band is degenerate, and the value 100 is flagged as an outlier. -/
theorem c4_outlier_iqr_bounds_witness :
    ((labsSilver c4labs).getD 4 labSilverDefault).is_outlier = true := by
  obtain ⟨hlen, q1, q3, hq1, hq3, hlow, hup, hiff⟩ :=
    c4_outlier_iqr_bounds c4labs 4 ⟨100, 1⟩ (by decide)
  have e1 : labQ1 c4labs ((c4labs.getD 4 labRawDefault).test_name) = some ⟨10, 1⟩ := by decide
  have e3 : labQ3 c4labs ((c4labs.getD 4 labRawDefault).test_name) = some ⟨10, 1⟩ := by decide
  rw [e1] at hq1
  rw [e3] at hq3
  cases hq1
  cases hq3
  exact hiff.mpr (Or.inr (by decide))

/-! ## Join machinery for the gold layer -/

/-- `find?` by key over a keyed map: lookup succeeds exactly for the keys
present. -/
lemma find?_keyed_map {F : Type} (keys : List Int) (g : Int → F) (pid : F → Int)
    (hg : ∀ k, pid (g k) = k) (p : Int) :
    (keys.map g).find? (fun f => pid f == p) =
      if p ∈ keys then some (g p) else none := by
  induction keys with
  | nil => simp
  | cons k t ih =>
    rw [List.map_cons]
    by_cases hk : k = p
    · subst hk
      rw [List.find?_cons_of_pos]
      · simp
      · simp [hg]
    · rw [List.find?_cons_of_neg]
      · rw [ih]
        have hpk : ¬ p = k := fun h => hk h.symm
        by_cases hp : p ∈ t
        · rw [if_pos hp, if_pos (List.mem_cons_of_mem k hp)]
        · rw [if_neg hp, if_neg (by simp [List.mem_cons, hpk, hp])]
      · simp [hg, hk]

/-- Looking up a patient id in the diagnosis feature table. -/
lemma diagFeatures_find (ds : List DiagnosisSilver) (p : Int) :
    (diagnosisFeatures ds).find? (fun f => f.patient_id == p) =
      if p ∈ (validDiags ds).map (fun d => d.patient_id) then
        some (mkDiagFeatures (validDiags ds) p) else none := by
  unfold diagnosisFeatures
  rw [find?_keyed_map _ _ _ (fun k => rfl) p]
  by_cases hp : p ∈ (validDiags ds).map (fun d => d.patient_id)
  · rw [if_pos (List.mem_dedup.mpr hp), if_pos hp]
  · rw [if_neg (fun h => hp (List.mem_dedup.mp h)), if_neg hp]

/-- Looking up a patient id in the lab feature table. -/
lemma labFeatures_find (ls : List LabSilver) (p : Int) :
    (labFeatures ls).find? (fun f => f.patient_id == p) =
      if p ∈ (validLabs ls).map (fun l => l.patient_id) then
        some (mkLabFeatures (validLabs ls) p) else none := by
  unfold labFeatures
  rw [find?_keyed_map _ _ _ (fun k => rfl) p]
  by_cases hp : p ∈ (validLabs ls).map (fun l => l.patient_id)
  · rw [if_pos (List.mem_dedup.mpr hp), if_pos hp]
  · rw [if_neg (fun h => hp (List.mem_dedup.mp h)), if_neg hp]

/-- Looking up a patient id in the medication feature table. -/
lemma medFeatures_find (ms : List MedicationSilver) (p : Int) :
    (medFeatures ms).find? (fun f => f.patient_id == p) =
      if p ∈ (validMeds ms).map (fun m => m.patient_id) then
        some (mkMedFeatures (validMeds ms) p) else none := by
  unfold medFeatures
  rw [find?_keyed_map _ _ _ (fun k => rfl) p]
  by_cases hp : p ∈ (validMeds ms).map (fun m => m.patient_id)
  · rw [if_pos (List.mem_dedup.mpr hp), if_pos hp]
  · rw [if_neg (fun h => hp (List.mem_dedup.mp h)), if_neg hp]

/-- A patient id absent from a table matches no record of it. -/
lemma filter_pid_eq_nil {α : Type} (valid : List α) (pid : α → Int) (p : Int)
    (h : p ∉ valid.map pid) : valid.filter (fun d => pid d == p) = [] := by
  apply List.filter_eq_nil_iff.mpr
  intro d hd
  simp only [beq_iff_eq]
  intro hpd
  exact h (List.mem_map.mpr ⟨d, hd, hpd⟩)

/-- The silver patients stage preserves the original patient id column. -/
lemma patientsSilver_orig (ps : List PatientRaw) :
    (patientsSilver ps).map (fun r => r.original_patient_id) =
      ps.map (fun p => p.patient_id) := by
  simp only [patientsSilver, List.map_map]
  have e1 := map_snd_enum_comp
    (ps.map (fun p =>
      let c := cleanPatient p
      { c with data_quality_issue := patientQualityFlag c }))
    (fun c : PatientClean => c.patient_id)
  have e2 : (ps.map (fun p =>
      let c := cleanPatient p
      { c with data_quality_issue := patientQualityFlag c })).map
        (fun c : PatientClean => c.patient_id) =
      ps.map (fun p => p.patient_id) := by
    rw [List.map_map]
    rfl
  exact e1.trans e2

/-- The gold table's `original_patient_id` column is the input id column. -/
lemma goldTable_orig (ps : List PatientRaw) (ds : List DiagnosisRaw)
    (ls : List LabRaw) (ms : List MedicationRaw) :
    (goldTable ps ds ls ms).map (fun r => r.original_patient_id) =
      ps.map (fun p => p.patient_id) := by
  unfold goldTable
  simp only [List.map_map]
  exact patientsSilver_orig ps

/-- The `num_diagnoses` column joined for a patient id equals the number of
that patient's unflagged diagnosis records — whether or not a feature row
exists, thanks to the null-fill. -/
lemma gold_num_diagnoses (ds : List DiagnosisRaw) (p : Int) :
    ((((diagnosisFeatures (diagnosesSilver ds)).find?
        (fun f => f.patient_id == p)).map (fun f => f.num_diagnoses)).getD 0) =
      ((validDiags (diagnosesSilver ds)).filter (fun d => d.patient_id == p)).length := by
  rw [diagFeatures_find]
  by_cases hp : p ∈ (validDiags (diagnosesSilver ds)).map (fun d => d.patient_id)
  · rw [if_pos hp]
    rfl
  · rw [if_neg hp, filter_pid_eq_nil _ _ p hp]
    rfl

/-- The `num_lab_tests` column joined for a patient id equals the number of
that patient's valid, non-outlier lab records. -/
lemma gold_num_labs (ls : List LabRaw) (p : Int) :
    ((((labFeatures (labsSilver ls)).find?
        (fun f => f.patient_id == p)).map (fun f => f.num_lab_tests)).getD 0) =
      ((validLabs (labsSilver ls)).filter (fun l => l.patient_id == p)).length := by
  rw [labFeatures_find]
  by_cases hp : p ∈ (validLabs (labsSilver ls)).map (fun l => l.patient_id)
  · rw [if_pos hp]
    rfl
  · rw [if_neg hp, filter_pid_eq_nil _ _ p hp]
    rfl

/-- The `num_medications` column joined for a patient id equals the number
of that patient's unflagged medication records. -/
lemma gold_num_meds (ms : List MedicationRaw) (p : Int) :
    ((((medFeatures (medsSilver ms)).find?
        (fun f => f.patient_id == p)).map (fun f => f.num_medications)).getD 0) =
      ((validMeds (medsSilver ms)).filter (fun m => m.patient_id == p)).length := by
  rw [medFeatures_find]
  by_cases hp : p ∈ (validMeds (medsSilver ms)).map (fun m => m.patient_id)
  · rw [if_pos hp]
    rfl
  · rw [if_neg hp, filter_pid_eq_nil _ _ p hp]
    rfl

/-! ## C2: the gold join is keyed by the original patient id -/

/-- Claim C2: the gold table left-joins the per-patient feature sets onto
the patient master **by the original (pre-deduplication) patient id**, not
by `patient_key`: it has one row per input patient record — one wide row
per original patient identifier when the identifiers are distinct — and
each row's aggregate columns are computed from the records matching its own
original id, so duplicate patient rows sharing a `patient_key` keep
independent feature rows instead of being merged. -/
theorem c2_join_on_original_id (ps : List PatientRaw) (ds : List DiagnosisRaw)
    (ls : List LabRaw) (ms : List MedicationRaw)
    (hnd : (ps.map (fun p => p.patient_id)).Nodup) :
    (goldTable ps ds ls ms).length = ps.length ∧
    (goldTable ps ds ls ms).map (fun r => r.original_patient_id) =
      ps.map (fun p => p.patient_id) ∧
    (∀ p, p ∈ ps.map (fun q => q.patient_id) →
      ((goldTable ps ds ls ms).filter
        (fun r => r.original_patient_id == p)).length = 1) ∧
    (∀ r ∈ goldTable ps ds ls ms,
      r.num_diagnoses = ((validDiags (diagnosesSilver ds)).filter
          (fun d => d.patient_id == r.original_patient_id)).length ∧
      r.num_lab_tests = ((validLabs (labsSilver ls)).filter
          (fun l => l.patient_id == r.original_patient_id)).length ∧
      r.num_medications = ((validMeds (medsSilver ms)).filter
          (fun m => m.patient_id == r.original_patient_id)).length) := by
  refine ⟨?_, goldTable_orig ps ds ls ms, ?_, ?_⟩
  · unfold goldTable
    rw [List.length_map]
    simp [patientsSilver, patientsCleanFlagged]
  · intro p hp
    rw [← List.countP_eq_length_filter]
    have h1 : (goldTable ps ds ls ms).countP (fun r => r.original_patient_id == p) =
        ((goldTable ps ds ls ms).map (fun r => r.original_patient_id)).countP
          (fun x => x == p) := by
      rw [List.countP_map]
      rfl
    rw [h1, goldTable_orig]
    have h2 : (ps.map (fun q => q.patient_id)).countP (fun x => x == p) =
        (ps.map (fun q => q.patient_id)).count p := rfl
    rw [h2]
    exact List.count_eq_one_of_mem hnd hp
  · intro r hr
    unfold goldTable at hr
    obtain ⟨m, hm, rfl⟩ := List.mem_map.mp hr
    exact ⟨gold_num_diagnoses ds m.original_patient_id,
           gold_num_labs ls m.original_patient_id,
           gold_num_meds ms m.original_patient_id⟩

/-- Witness for C2: two patient records with distinct ids 1, 2 (the C10
pair, which share a `patient_key`) give a gold table with exactly two rows
keyed by ids 1 and 2. -/
theorem c2_join_on_original_id_witness :
    (goldTable [c10recA, c10recB] [] [] []).length = 2 ∧
    (goldTable [c10recA, c10recB] [] [] []).map (fun r => r.original_patient_id) =
      [1, 2] := by
  have h := c2_join_on_original_id [c10recA, c10recB] [] [] [] (by decide)
  exact ⟨h.1.trans (by decide), h.2.1.trans (by decide)⟩

/-! ## C6: null-fill of feature columns -/

/-- Claim C6: a gold row whose patient has no matching diagnosis
(respectively lab, medication) records after the exclusion filters has 0 in
the corresponding count and binary-indicator columns and 0.0 in the
averaged lab-value columns; these columns are total (`coalesce`-filled), so
they are never null. -/
theorem c6_null_fill (ps : List PatientRaw) (ds : List DiagnosisRaw)
    (ls : List LabRaw) (ms : List MedicationRaw) (r : GoldRow)
    (hr : r ∈ goldTable ps ds ls ms) :
    ((∀ d ∈ diagnosesSilver ds, d.data_quality_issue = none →
        d.patient_id ≠ r.original_patient_id) →
      r.num_diagnoses = 0 ∧ r.num_chronic_conditions = 0 ∧ r.has_diabetes = 0 ∧
      r.has_heart_disease = 0 ∧ r.has_copd = 0 ∧ r.has_ckd = 0 ∧ r.has_anxiety = 0) ∧
    ((∀ l ∈ labsSilver ls, l.data_quality_issue = none → l.is_outlier = false →
        l.patient_id ≠ r.original_patient_id) →
      r.num_lab_tests = 0 ∧ r.avg_hemoglobin = Frac.ofInt 0 ∧
      r.avg_glucose = Frac.ofInt 0 ∧ r.avg_wbc = Frac.ofInt 0 ∧
      r.avg_creatinine = Frac.ofInt 0 ∧ r.avg_bun = Frac.ofInt 0) ∧
    ((∀ m ∈ medsSilver ms, m.data_quality_issue = none →
        m.patient_id ≠ r.original_patient_id) →
      r.num_medications = 0 ∧ r.on_metformin = 0 ∧ r.on_ace_inhibitor = 0 ∧
      r.on_statin = 0) := by
  unfold goldTable at hr
  obtain ⟨m, hm, rfl⟩ := List.mem_map.mp hr
  refine ⟨?_, ?_, ?_⟩
  · intro h
    have hnot : m.original_patient_id ∉
        (validDiags (diagnosesSilver ds)).map (fun d => d.patient_id) := by
      intro hmem
      obtain ⟨d, hd, hpd⟩ := List.mem_map.mp hmem
      have hd2 := List.mem_filter.mp hd
      have hq : d.data_quality_issue = none := by simpa using hd2.2
      exact (h d hd2.1 hq) hpd
    have hfind : (diagnosisFeatures (diagnosesSilver ds)).find?
        (fun f => f.patient_id == m.original_patient_id) = none := by
      rw [diagFeatures_find, if_neg hnot]
    refine ⟨?_, ?_, ?_, ?_, ?_, ?_, ?_⟩ <;> (simp only [mkGoldRow]; rw [hfind]; rfl)
  · intro h
    have hnot : m.original_patient_id ∉
        (validLabs (labsSilver ls)).map (fun l => l.patient_id) := by
      intro hmem
      obtain ⟨l, hl, hpd⟩ := List.mem_map.mp hmem
      have hl2 := List.mem_filter.mp hl
      have hcond := hl2.2
      simp only [Bool.and_eq_true, beq_iff_eq] at hcond
      exact (h l hl2.1 hcond.1 hcond.2) hpd
    have hfind : (labFeatures (labsSilver ls)).find?
        (fun f => f.patient_id == m.original_patient_id) = none := by
      rw [labFeatures_find, if_neg hnot]
    refine ⟨?_, ?_, ?_, ?_, ?_, ?_⟩ <;> (simp only [mkGoldRow]; rw [hfind]; rfl)
  · intro h
    have hnot : m.original_patient_id ∉
        (validMeds (medsSilver ms)).map (fun q => q.patient_id) := by
      intro hmem
      obtain ⟨q, hq0, hpd⟩ := List.mem_map.mp hmem
      have hq2 := List.mem_filter.mp hq0
      have hq : q.data_quality_issue = none := by simpa using hq2.2
      exact (h q hq2.1 hq) hpd
    have hfind : (medFeatures (medsSilver ms)).find?
        (fun f => f.patient_id == m.original_patient_id) = none := by
      rw [medFeatures_find, if_neg hnot]
    refine ⟨?_, ?_, ?_, ?_⟩ <;> (simp only [mkGoldRow]; rw [hfind]; rfl)

/-- Witness for C6: a single patient with empty diagnosis, lab, and
medication inputs yields zeros, never nulls. -/
theorem c6_null_fill_witness :
    ((goldTable [c10recA] [] [] []).getD 0 goldRowDefault).num_diagnoses = 0 ∧
    ((goldTable [c10recA] [] [] []).getD 0 goldRowDefault).num_chronic_conditions = 0 ∧
    ((goldTable [c10recA] [] [] []).getD 0 goldRowDefault).has_diabetes = 0 ∧
    ((goldTable [c10recA] [] [] []).getD 0 goldRowDefault).avg_glucose = Frac.ofInt 0 ∧
    ((goldTable [c10recA] [] [] []).getD 0 goldRowDefault).num_medications = 0 := by
  have h := c6_null_fill [c10recA] [] [] []
    ((goldTable [c10recA] [] [] []).getD 0 goldRowDefault) (by decide)
  have h1 := h.1 (by decide)
  have h2 := h.2.1 (by decide)
  have h3 := h.2.2 (by decide)
  exact ⟨h1.1, h1.2.1, h1.2.2.1, h2.2.2.1, h3.1⟩

/-! ## C1: deduplication invariant -/

/-- `keyLtB` in propositional form. -/
lemma keyLtB_iff (a b : Int × Nat) :
    keyLtB a b = true ↔ (a.1 < b.1 ∨ (a.1 = b.1 ∧ a.2 < b.2)) := by
  unfold keyLtB
  simp [Bool.or_eq_true, Bool.and_eq_true, decide_eq_true_eq]

/-- The dedup ordering is irreflexive. -/
lemma keyLtB_irrefl (a : Int × Nat) : keyLtB a a = false := by
  rw [Bool.eq_false_iff]
  intro h
  rw [keyLtB_iff] at h
  omega

/-- The dedup ordering is transitive. -/
lemma keyLtB_trans (a b c : Int × Nat) (h1 : keyLtB a b = true)
    (h2 : keyLtB b c = true) : keyLtB a c = true := by
  rw [keyLtB_iff] at h1 h2 ⊢
  omega

/-- The dedup ordering is total on distinct keys. -/
lemma keyLtB_trichotomy (a b : Int × Nat) (hne : a ≠ b) :
    keyLtB a b = true ∨ keyLtB b a = true := by
  rw [keyLtB_iff, keyLtB_iff]
  have hcomp : ¬(a.1 = b.1 ∧ a.2 = b.2) := by
    intro h
    exact hne (Prod.ext h.1 h.2)
  omega

/-- A nonempty list has an element of minimal dedup key. -/
lemma exists_keyMin {α : Type} (key : α → Int × Nat) (L : List α) (h : L ≠ []) :
    ∃ m ∈ L, ∀ y ∈ L, keyLtB (key y) (key m) = false := by
  induction L with
  | nil => exact absurd rfl h
  | cons a t ih =>
    cases t with
    | nil =>
      refine ⟨a, List.mem_cons_self a [], ?_⟩
      intro y hy
      rcases List.mem_cons.mp hy with rfl | hy2
      · exact keyLtB_irrefl (key y)
      · simp at hy2
    | cons b u =>
      obtain ⟨m, hm, hmin⟩ := ih (by simp)
      by_cases hc : keyLtB (key a) (key m) = true
      · refine ⟨a, List.mem_cons_self a (b :: u), ?_⟩
        intro y hy
        rcases List.mem_cons.mp hy with rfl | hy2
        · exact keyLtB_irrefl (key y)
        · rw [Bool.eq_false_iff]
          intro hyx
          have htr : keyLtB (key y) (key m) = true := keyLtB_trans _ _ _ hyx hc
          rw [hmin y hy2] at htr
          exact Bool.noConfusion htr
      · refine ⟨m, List.mem_cons_of_mem a hm, ?_⟩
        intro y hy
        rcases List.mem_cons.mp hy with rfl | hy2
        · exact Bool.eq_false_iff.mpr hc
        · exact hmin y hy2

/-- The `n == 0` test in Bool form for the duplicate flag. -/
lemma dup_pred_eq (n : Nat) : (decide (n + 1 > 1) == false) = (n == 0) := by
  by_cases h : n = 0
  · subst h
    rfl
  · have h1 : n + 1 > 1 := by omega
    simp [h1, h]

/-- In a list with pairwise-distinct keys, exactly one element carries the
key of a given member. -/
lemma countP_key_eq_one {α : Type} (key : α → Int × Nat) (L : List α)
    (hnd : (L.map key).Nodup) (m : α) (hm : m ∈ L) :
    L.countP (fun x => key x == key m) = 1 := by
  induction L with
  | nil => simp at hm
  | cons a t ih =>
    rw [List.map_cons, List.nodup_cons] at hnd
    rcases List.mem_cons.mp hm with rfl | hmt
    · rw [List.countP_cons_of_pos _ _ (by simp)]
      have h0 : t.countP (fun x => key x == key m) = 0 := by
        rw [List.countP_eq_zero]
        intro x hx
        simp only [beq_iff_eq]
        intro hxa
        exact hnd.1 (by rw [← hxa]; exact List.mem_map_of_mem key hx)
      rw [h0]
    · rw [List.countP_cons_of_neg]
      · exact ih hnd.2 hmt
      · simp only [beq_iff_eq]
        intro hak
        exact hnd.1 (by rw [hak]; exact List.mem_map_of_mem key hmt)

/-- In a list with pairwise-distinct dedup keys, exactly one element has no
strictly smaller key present (the window's rank-1 element). -/
lemma filter_min_length_one {α : Type} (key : α → Int × Nat) (L : List α)
    (hnd : (L.map key).Nodup) (hne : L ≠ []) :
    (L.filter (fun x =>
      (L.filter (fun y => keyLtB (key y) (key x))).length == 0)).length = 1 := by
  obtain ⟨m, hm, hmin⟩ := exists_keyMin key L hne
  have hconv : ∀ x ∈ L,
      ((L.filter (fun y => keyLtB (key y) (key x))).length == 0) = (key x == key m) := by
    intro x hx
    by_cases hxm : key x = key m
    · have hempty : L.filter (fun y => keyLtB (key y) (key x)) = [] := by
        apply List.filter_eq_nil_iff.mpr
        intro y hy
        rw [hxm, hmin y hy]
        simp
      rw [hempty]
      simp [hxm]
    · have hne2 : key m ≠ key x := fun h => hxm h.symm
      have hlt : keyLtB (key m) (key x) = true := by
        rcases keyLtB_trichotomy (key m) (key x) hne2 with h | h
        · exact h
        · rw [hmin x hx] at h
          exact absurd h (by decide)
      have hmemf : m ∈ L.filter (fun y => keyLtB (key y) (key x)) :=
        List.mem_filter.mpr ⟨hm, hlt⟩
      have hlen : (L.filter (fun y => keyLtB (key y) (key x))).length ≠ 0 := by
        intro h0
        rw [List.length_eq_zero] at h0
        rw [h0] at hmemf
        simp at hmemf
      have h1 : ((L.filter (fun y => keyLtB (key y) (key x))).length == 0) = false := by
        simpa using hlen
      have h2 : (key x == key m) = false := by
        simpa using hxm
      rw [h1, h2]
  rw [List.filter_congr hconv]
  rw [← List.countP_eq_length_filter]
  exact countP_key_eq_one key L hnd m hm

/-- The fingerprint group of an enumerated cleaned collection. -/
def fpGroup (C : List PatientClean) (f : String) : List (Nat × PatientClean) :=
  C.enum.filter (fun ir => fingerprint ir.2 == f)

/-- The dedup keys of a fingerprint group are pairwise distinct (positions
are distinct). -/
lemma fpGroup_keys_nodup (C : List PatientClean) (f : String) :
    ((fpGroup C f).map dedupKey).Nodup := by
  apply List.Nodup.of_map Prod.snd
  rw [List.map_map]
  have hfst : ((fpGroup C f).map Prod.fst).Nodup := by
    have h1 : (C.enum.map Prod.fst).Nodup := by
      rw [List.enum_map_fst]
      exact List.nodup_range _
    exact h1.sublist (List.Sublist.map Prod.fst (List.filter_sublist C.enum))
  exact hfst

/-- Within a fingerprint group, `row_number` counts the group members with
smaller dedup key. -/
lemma rowNum_in_group (C : List PatientClean) (f : String)
    (ir : Nat × PatientClean) (hir : ir ∈ fpGroup C f) :
    rowNum C ir =
      ((fpGroup C f).filter
        (fun js => keyLtB (dedupKey js) (dedupKey ir))).length + 1 := by
  have hfp : fingerprint ir.2 = f := by
    have h2 := (List.mem_filter.mp hir).2
    exact beq_iff_eq.mp h2
  have hfe : (fpGroup C f).filter (fun js => keyLtB (dedupKey js) (dedupKey ir)) =
      C.enum.filter (fun js => fingerprint js.2 == f &&
        keyLtB (dedupKey js) (dedupKey ir)) := by
    show (C.enum.filter (fun ir2 => fingerprint ir2.2 == f)).filter _ = _
    rw [List.filter_filter]
    exact List.filter_congr (fun a _ => Bool.and_comm _ _)
  unfold rowNum
  rw [hfp, ← hfe]

/-- Claim C1: for every fingerprint group of the silver patients output,
all records of the group carry one common `patient_key`; exactly one record
of the group has `is_duplicate = false`; and that canonical record's
original patient identifier is minimal in the group. -/
theorem c1_dedup_invariant (ps : List PatientRaw) (f : String)
    (hne : (patientsSilver ps).filter (fun r => silverFp r == f) ≠ []) :
    (∀ r ∈ (patientsSilver ps).filter (fun r => silverFp r == f),
      ∀ s ∈ (patientsSilver ps).filter (fun r => silverFp r == f),
        r.patient_key = s.patient_key) ∧
    (((patientsSilver ps).filter (fun r => silverFp r == f)).filter
      (fun r => r.is_duplicate == false)).length = 1 ∧
    (∀ r ∈ (patientsSilver ps).filter (fun r => silverFp r == f),
      r.is_duplicate = false →
      ∀ s ∈ (patientsSilver ps).filter (fun r => silverFp r == f),
        r.original_patient_id ≤ s.original_patient_id) := by
  have hGrp : (patientsSilver ps).filter (fun r => silverFp r == f) =
      (fpGroup (patientsCleanFlagged ps) f).map
        (mkPatientSilver (patientsCleanFlagged ps)) := by
    show ((patientsCleanFlagged ps).enum.map
        (mkPatientSilver (patientsCleanFlagged ps))).filter
          (fun r => silverFp r == f) = _
    rw [List.filter_map]
    rfl
  rw [hGrp] at hne ⊢
  have hGne : fpGroup (patientsCleanFlagged ps) f ≠ [] := by
    intro h0
    rw [h0] at hne
    exact hne rfl
  refine ⟨?_, ?_, ?_⟩
  · intro r hr s hs
    obtain ⟨ir, hir, rfl⟩ := List.mem_map.mp hr
    obtain ⟨js, hjs, rfl⟩ := List.mem_map.mp hs
    unfold fpGroup at hir hjs
    have hfp1 : fingerprint ir.2 = f := beq_iff_eq.mp (List.mem_filter.mp hir).2
    have hfp2 : fingerprint js.2 = f := beq_iff_eq.mp (List.mem_filter.mp hjs).2
    show patientKeyOf (patientsCleanFlagged ps) (fingerprint ir.2) =
      patientKeyOf (patientsCleanFlagged ps) (fingerprint js.2)
    rw [hfp1, hfp2]
  · rw [List.filter_map, List.length_map]
    have hpred : ∀ ir ∈ fpGroup (patientsCleanFlagged ps) f,
        (((fun r : PatientSilver => r.is_duplicate == false) ∘
            mkPatientSilver (patientsCleanFlagged ps)) ir) =
          (((fpGroup (patientsCleanFlagged ps) f).filter
            (fun js => keyLtB (dedupKey js) (dedupKey ir))).length == 0) := by
      intro ir hir
      show (decide (rowNum (patientsCleanFlagged ps) ir > 1) == false) = _
      rw [rowNum_in_group (patientsCleanFlagged ps) f ir hir]
      exact dup_pred_eq _
    rw [List.filter_congr hpred]
    exact filter_min_length_one dedupKey _ (fpGroup_keys_nodup _ f) hGne
  · intro r hr hdup s hs
    obtain ⟨ir, hir, rfl⟩ := List.mem_map.mp hr
    obtain ⟨js, hjs, rfl⟩ := List.mem_map.mp hs
    have hd2 : decide (rowNum (patientsCleanFlagged ps) ir > 1) = false := hdup
    have hrow := rowNum_in_group (patientsCleanFlagged ps) f ir hir
    have hn : ¬ (rowNum (patientsCleanFlagged ps) ir > 1) := of_decide_eq_false hd2
    rw [hrow] at hn
    have hcount : ((fpGroup (patientsCleanFlagged ps) f).filter
        (fun js2 => keyLtB (dedupKey js2) (dedupKey ir))).length = 0 := by
      omega
    rw [List.length_eq_zero] at hcount
    have hall := List.filter_eq_nil_iff.mp hcount js hjs
    show ir.2.patient_id ≤ js.2.patient_id
    have hnot : ¬ (keyLtB (dedupKey js) (dedupKey ir) = true) := by simpa using hall
    rw [keyLtB_iff] at hnot
    dsimp only [dedupKey] at hnot
    omega

/-- The spec's end-to-end dedup scenario: ids 1 and 5 share the fingerprint
JOHN|SMITH|1980-01-01 (one date of birth in each accepted format), id 2 is
distinct. -/
def c1scenario : List PatientRaw :=
  [ { patient_id := 1, first_name := some "John", last_name := some "Smith",
      date_of_birth := some "1980-01-01", age := some 44, gender := some "M",
      admission_date := some "2023-01-10", discharge_date := some "2023-01-15",
      length_of_stay := some 5, readmitted_30_days := some 0 },
    { patient_id := 5, first_name := some "John", last_name := some "Smith",
      date_of_birth := some "01/01/1980", age := some 44, gender := some "M",
      admission_date := some "2023-02-10", discharge_date := some "2023-02-15",
      length_of_stay := some 5, readmitted_30_days := some 1 },
    { patient_id := 2, first_name := some "Jane", last_name := some "Doe",
      date_of_birth := some "1975-05-05", age := some 49, gender := some "F",
      admission_date := some "2023-03-10", discharge_date := some "2023-03-12",
      length_of_stay := some 2, readmitted_30_days := some 0 } ]

/-- Witness for C1 on the spec scenario: the JOHN|SMITH group has exactly
one non-duplicate record, and the cleaned table reads
`(patient_key, is_duplicate) = [(2, false), (2, true), (1, false)]`. -/
theorem c1_dedup_invariant_witness :
    (((patientsSilver c1scenario).filter
        (fun r => silverFp r == "JOHN|SMITH|1980-01-01")).filter
      (fun r => r.is_duplicate == false)).length = 1 ∧
    (patientsSilver c1scenario).map (fun r => (r.patient_key, r.is_duplicate)) =
      [(2, false), (2, true), (1, false)] := by
  have h := c1_dedup_invariant c1scenario "JOHN|SMITH|1980-01-01" (by decide)
  exact ⟨h.2.1, by decide⟩
